import Mathlib

/-!
Verification of the kubeflex credential kubeconfig subsystem.

This file gives a shallow embedding of the functions in the repository file
defining package kubeconfig (LoadAndMerge, LoadAndMergeNoWrite,
loadControlPlaneKubeconfig, WatchForSecretCreation, adjustConfigKeys,
renameKey) together with the external collaborators they call, and proves the
testable properties stated for that subsystem.

Go maps are unordered finite maps from strings; they are embedded as `Finmap`
over `String`, whose equality is extensional map equality, matching Go map
semantics (no key order).
-/

namespace Kubeconfig

/-- A Go map with string keys, embedded as a finite map. -/
abbrev StrMap (V : Type) : Type := Finmap fun _ : String => V

/-- The record type stored in the clusters mapping of a credential document
(clientcmdapi.Cluster); the remap and merge code treats values opaquely, so
only representative payload fields are carried. -/
structure Cluster where
  server : String
  certificateAuthorityData : String
deriving DecidableEq

/-- The record type stored in the authInfos mapping of a credential document
(clientcmdapi.AuthInfo); treated opaquely by the code under study. -/
structure AuthInfo where
  clientCertificateData : String
  clientKeyData : String
deriving DecidableEq

/-- The record type stored in the contexts mapping (clientcmdapi.Context):
a cluster-name reference, an auth-identity reference and an optional default
namespace (zero value "" when not set, as in the Go struct literal at the
upsert site). -/
structure Context where
  cluster : String
  authInfo : String
  nspace : String
deriving DecidableEq

/-- The credential document (clientcmdapi.Config restricted to the fields the
subsystem reads or writes): three mappings plus the current-context pointer. -/
structure Config where
  clusters : StrMap Cluster
  authInfos : StrMap AuthInfo
  contexts : StrMap Context
  currentContext : String
deriving DecidableEq

/-- clientcmdapi.NewConfig(): the default document, with empty mappings and
empty current context. -/
def emptyConfig : Config :=
  { clusters := ∅, authInfos := ∅, contexts := ∅, currentContext := "" }

/-- Modelled from the spec: NameGenerator.ClusterName. The naming-function
implementations live in the certs package of this repository, outside the
given material; the spec fixes them as pure deterministic functions,
collision-free across distinct control-plane names. -/
def GenerateClusterName (cpName : String) : String := cpName ++ "-cluster"

/-- Modelled from the spec: NameGenerator.AuthInfoAdminName (external pure
deterministic naming function, collision-free across distinct names). -/
def GenerateAuthInfoAdminName (cpName : String) : String := cpName ++ "-admin"

/-- Modelled from the spec: NameGenerator.ContextName (external pure
deterministic naming function, collision-free across distinct names; the
context is named after the control plane itself). -/
def GenerateContextName (cpName : String) : String := cpName

/-- Modelled from the spec: the OCM member of the control-plane type
enumeration (api/v1alpha1, outside the given material), as a string since
adjustConfigKeys switches on string(type). -/
def ControlPlaneTypeOCM : String := "ocm"

/-- Modelled from the spec: the VCluster member of the control-plane type
enumeration, as a string. -/
def ControlPlaneTypeVCluster : String := "vcluster"

/-- renameKey: if oldKey is present in the map, delete it and re-insert its
value under newKey; otherwise do nothing. The Go source performs the same
logic by a type switch over the three mapping types (and a silent default
branch for any other type); the embedding is one polymorphic function. -/
def renameKey {V : Type} (m : StrMap V) (oldKey newKey : String) : StrMap V :=
  match m.lookup oldKey with
  | some v => (m.erase oldKey).insert newKey v
  | none => m

/-- adjustConfigKeys: the key remap. For each known control-plane type,
rename the type-specific generic keys of the three mappings to the generated
unique names, set currentContext to the generated context name and upsert the
context record at that key; for unknown types return the document unchanged. -/
def adjustConfigKeys (config : Config) (cpName controlPlaneType : String) : Config :=
  if controlPlaneType = ControlPlaneTypeOCM then
    { clusters := renameKey config.clusters "multicluster-controlplane" (GenerateClusterName cpName)
      authInfos := renameKey config.authInfos "user" (GenerateAuthInfoAdminName cpName)
      contexts :=
        (renameKey config.contexts "multicluster-controlplane" (GenerateContextName cpName)).insert
          (GenerateContextName cpName)
          { cluster := GenerateClusterName cpName
            authInfo := GenerateAuthInfoAdminName cpName
            nspace := "" }
      currentContext := GenerateContextName cpName }
  else if controlPlaneType = ControlPlaneTypeVCluster then
    { clusters := renameKey config.clusters "my-vcluster" (GenerateClusterName cpName)
      authInfos := renameKey config.authInfos "my-vcluster" (GenerateAuthInfoAdminName cpName)
      contexts :=
        (renameKey config.contexts "my-vcluster" (GenerateContextName cpName)).insert
          (GenerateContextName cpName)
          { cluster := GenerateClusterName cpName
            authInfo := GenerateAuthInfoAdminName cpName
            nspace := "" }
      currentContext := GenerateContextName cpName }
  else
    config

/-- Modelled from the spec: the merge routine called by LoadAndMerge and
LoadAndMergeNoWrite is defined outside the given material; the spec fixes its
contract as key-based union with the source winning on conflicts, destination
keys otherwise preserved, and currentContext taken from the source. `Finmap`
union is left-biased, so the source mapping is placed on the left. -/
def merge (konfig cpKonfig : Config) : Config :=
  { clusters := cpKonfig.clusters ∪ konfig.clusters
    authInfos := cpKonfig.authInfos ∪ konfig.authInfos
    contexts := cpKonfig.contexts ∪ konfig.contexts
    currentContext := cpKonfig.currentContext }

/-- Errors are opaque messages carried unchanged along the propagation path. -/
abbrev KErr := String

/-- Raw payload bytes of a bundle. -/
abbrev Bytes := List Nat

/-- A secret (credential bundle): a keyed set of byte payloads, as fetched
from the store. -/
structure Secret where
  data : StrMap Bytes

/-- Go map indexing: m[k] yields the zero value (empty byte slice) when the
key is absent; it never fails. -/
def goMapGet (m : StrMap Bytes) (k : String) : Bytes :=
  (m.lookup k).getD []

/-- Modelled from the spec: NamespaceResolver (util package of this
repository, outside the given material) — a pure function from control-plane
name to namespace. -/
def GenerateNamespaceFromControlPlaneName (name : String) : String :=
  name ++ "-system"

/-- Modelled from the spec: the bundle name selected per control-plane type
(util package, outside the given material). -/
def GetKubeconfSecretNameByControlPlaneType (controlPlaneType : String) : String :=
  if controlPlaneType = ControlPlaneTypeVCluster then "vc-vcluster" else "admin-kubeconfig"

/-- Modelled from the spec: the payload key selected per control-plane type
(util package, outside the given material). -/
def GetKubeconfSecretKeyNameByControlPlaneType (controlPlaneType : String) : String :=
  if controlPlaneType = ControlPlaneTypeVCluster then "config" else "kubeconfig"

/-- The secret store handle: fetching a secret by (namespace, name);
`none` models the not-found fetch error. -/
structure Clientset where
  getSecret : String → String → Option Secret

/-- The third-party decoder clientcmd.Load, parameterized by the decoding of
non-empty bytes: on empty input it returns the default (empty) document with
no error — documented upstream behavior ("if there is no data in a file,
return the default object instead of failing") — and otherwise it decodes,
failing with a decode error on malformed bytes. -/
def clientcmdLoad (decode : Bytes → Except KErr Config) (data : Bytes) :
    Except KErr Config :=
  if data.isEmpty then .ok emptyConfig else decode data

/-- loadControlPlaneKubeconfig: resolve the namespace, fetch the
type-selected secret (propagating the fetch error), select the type-specific
payload key by Go map indexing, and decode. -/
def loadControlPlaneKubeconfig (decode : Bytes → Except KErr Config)
    (client : Clientset) (name controlPlaneType : String) : Except KErr Config :=
  let namespc := GenerateNamespaceFromControlPlaneName name
  match client.getSecret namespc (GetKubeconfSecretNameByControlPlaneType controlPlaneType) with
  | none => .error "NotFoundError"
  | some ks =>
    clientcmdLoad decode (goMapGet ks.data (GetKubeconfSecretKeyNameByControlPlaneType controlPlaneType))

/-- The aggregate backing location: what loading the default kubeconfig file
yields (either the stored document or a load error), plus whether a write to
it would fail. -/
structure FileSys where
  kubeconfigFile : Except KErr Config
  writeError : Option KErr

/-- LoadKubeconfig: read the aggregate document from the default location. -/
def LoadKubeconfig (fs : FileSys) : Except KErr Config :=
  fs.kubeconfigFile

/-- WriteKubeconfig: persist the document to the default location (full
overwrite); on failure the error is returned and the location keeps its
previous content in this model. -/
def WriteKubeconfig (fs : FileSys) (config : Config) : Except KErr Unit × FileSys :=
  match fs.writeError with
  | some e => (.error e, fs)
  | none => (.ok (), { fs with kubeconfigFile := .ok config })

/-- LoadAndMerge: fetch and decode the control-plane bundle, remap its keys,
load the aggregate, merge, and persist; each failing step returns its error
unchanged and skips the rest (the merge of the contract is total, so the
merge error check of the source never fires). The returned pair is the
call result and the state of the backing location after the call. -/
def LoadAndMerge (decode : Bytes → Except KErr Config) (client : Clientset)
    (name controlPlaneType : String) (fs : FileSys) : Except KErr Unit × FileSys :=
  match loadControlPlaneKubeconfig decode client name controlPlaneType with
  | .error e => (.error e, fs)
  | .ok cpKonfig0 =>
    let cpKonfig := adjustConfigKeys cpKonfig0 name controlPlaneType
    match LoadKubeconfig fs with
    | .error e => (.error e, fs)
    | .ok konfig => WriteKubeconfig fs (merge konfig cpKonfig)

/-- LoadAndMergeNoWrite: as LoadAndMerge but merging into a supplied
document and returning it instead of persisting. -/
def LoadAndMergeNoWrite (decode : Bytes → Except KErr Config) (client : Clientset)
    (name controlPlaneType : String) (konfig : Config) : Except KErr Config :=
  match loadControlPlaneKubeconfig decode client name controlPlaneType with
  | .error e => .error e
  | .ok cpKonfig0 => .ok (merge konfig (adjustConfigKeys cpKonfig0 name controlPlaneType))

/-- The observable state of one WatchForSecretCreation run: whether the stop
channel has been closed, and how many times close(stopCh) has executed. -/
structure WatchRun where
  stopClosed : Bool
  closeCount : Nat
deriving DecidableEq

/-- The initial watch state: stop channel open, never closed. -/
def watchInit : WatchRun := { stopClosed := false, closeCount := 0 }

/-- The informer AddFunc handler for one creation event: if the created
secret name equals the target, close the stop channel. -/
def onSecretAdd (secretName eventName : String) (s : WatchRun) : WatchRun :=
  if eventName = secretName then
    { stopClosed := true, closeCount := s.closeCount + 1 }
  else
    s

/-- The informer run over a stream of creation events, delivered one at a
time (client-go handlers run sequentially on the informer thread): once the
stop channel is closed, controller.Run tears the subscription down and no
further event is delivered. -/
def watchRun (secretName : String) : List String → WatchRun → WatchRun
  | [], s => s
  | e :: rest, s =>
    if s.stopClosed then s else watchRun secretName rest (onSecretAdd secretName e s)

/-- WatchForSecretCreation, observed on a given event stream: the call
returns exactly when the stop channel has been closed (the caller parks on
it), so this predicate holds precisely for streams on which the wait
resolves. -/
def WatchForSecretCreation (secretName : String) (events : List String) : Bool :=
  (watchRun secretName events watchInit).stopClosed

/-! ### Concrete sample values used by witness theorems -/

/-- A sample cluster record. -/
def sampleCluster : Cluster :=
  { server := "https://example.test", certificateAuthorityData := "ca-data" }

/-- A second, distinct sample cluster record. -/
def sampleCluster2 : Cluster :=
  { server := "https://other.test", certificateAuthorityData := "ca-data-2" }

/-- A sample auth-info record. -/
def sampleAuthInfo : AuthInfo :=
  { clientCertificateData := "cert-data", clientKeyData := "key-data" }

/-- A backing location holding an empty aggregate, with writes succeeding. -/
def sampleFS : FileSys :=
  { kubeconfigFile := .ok emptyConfig, writeError := none }

/-- A decoder that rejects every non-empty payload. -/
def decodeFail : Bytes → Except KErr Config := fun _ => .error "DecodeError"

/-- A store with no secrets: every fetch reports not-found. -/
def emptyClient : Clientset :=
  { getSecret := fun _ _ => none }

/-- A store whose every secret exists but carries no payload keys. -/
def keylessClient : Clientset :=
  { getSecret := fun _ _ => some { data := ∅ } }

/-- A mapping holding both the generic key and the generated target key. -/
def collisionMap : StrMap Cluster :=
  (Finmap.singleton "my-vcluster" sampleCluster).insert "cp1-cluster" sampleCluster2

/-- The input document of the concrete VCluster scenario: all three mappings
keyed by the generic key, the generic context referencing the generic names. -/
def vclusterScenarioInput (c : Cluster) (a : AuthInfo) : Config :=
  { clusters := Finmap.singleton "my-vcluster" c
    authInfos := Finmap.singleton "my-vcluster" a
    contexts :=
      Finmap.singleton "my-vcluster"
        { cluster := "my-vcluster", authInfo := "my-vcluster", nspace := "" }
    currentContext := "my-vcluster" }

/-- The expected output document of the concrete VCluster scenario for
control-plane name cp1. -/
def vclusterScenarioExpected (c : Cluster) (a : AuthInfo) : Config :=
  { clusters := Finmap.singleton (GenerateClusterName "cp1") c
    authInfos := Finmap.singleton (GenerateAuthInfoAdminName "cp1") a
    contexts :=
      Finmap.singleton (GenerateContextName "cp1")
        { cluster := GenerateClusterName "cp1"
          authInfo := GenerateAuthInfoAdminName "cp1"
          nspace := "" }
    currentContext := GenerateContextName "cp1" }

/-! ### Map helper lemmas -/

lemma lookup_singleton_of_ne {V : Type} {x a : String} (b : V) (h : x ≠ a) :
    (Finmap.singleton a b : StrMap V).lookup x = none := by
  rw [Finmap.lookup_eq_none, Finmap.mem_singleton]
  exact h

lemma erase_insert_self {V : Type} (a : String) (b : V) (s : StrMap V) :
    (s.insert a b).erase a = s.erase a := by
  apply Finmap.ext_lookup
  intro x
  by_cases hx : x = a
  · subst hx
    simp
  · rw [Finmap.lookup_erase_ne hx, Finmap.lookup_erase_ne hx,
      Finmap.lookup_insert_of_ne _ hx]

lemma erase_erase_self {V : Type} (a : String) (s : StrMap V) :
    (s.erase a).erase a = s.erase a := by
  apply Finmap.ext_lookup
  intro x
  by_cases hx : x = a
  · subst hx
    simp
  · rw [Finmap.lookup_erase_ne hx, Finmap.lookup_erase_ne hx]

lemma insert_erase_self {V : Type} (a : String) (b : V) (s : StrMap V) :
    (s.erase a).insert a b = s.insert a b := by
  apply Finmap.ext_lookup
  intro x
  by_cases hx : x = a
  · subst hx
    simp
  · rw [Finmap.lookup_insert_of_ne _ hx, Finmap.lookup_insert_of_ne _ hx,
      Finmap.lookup_erase_ne hx]

lemma erase_singleton_self {V : Type} (a : String) (b : V) :
    (Finmap.singleton a b : StrMap V).erase a = ∅ := by
  apply Finmap.ext_lookup
  intro x
  by_cases hx : x = a
  · subst hx
    simp
  · rw [Finmap.lookup_erase_ne hx, lookup_singleton_of_ne _ hx, Finmap.lookup_empty]

lemma insert_empty {V : Type} (a : String) (b : V) :
    (∅ : StrMap V).insert a b = Finmap.singleton a b := by
  apply Finmap.ext_lookup
  intro x
  by_cases hx : x = a
  · subst hx
    simp
  · rw [Finmap.lookup_insert_of_ne _ hx, lookup_singleton_of_ne _ hx, Finmap.lookup_empty]

lemma keys_insert {V : Type} (a : String) (b : V) (s : StrMap V) :
    (s.insert a b).keys = insert a s.keys := by
  apply Finset.ext
  intro x
  rw [Finmap.mem_keys, Finmap.mem_insert, Finset.mem_insert, Finmap.mem_keys]

/-! ### renameKey lemmas -/

lemma renameKey_of_lookup_eq_some {V : Type} {m : StrMap V} {g : String} {v : V}
    (t : String) (h : m.lookup g = some v) :
    renameKey m g t = (m.erase g).insert t v := by
  rw [renameKey, h]

lemma renameKey_of_lookup_eq_none {V : Type} {m : StrMap V} {g : String}
    (t : String) (h : m.lookup g = none) :
    renameKey m g t = m := by
  rw [renameKey, h]

lemma lookup_renameKey_old {V : Type} (m : StrMap V) {g t : String} (hne : g ≠ t) :
    (renameKey m g t).lookup g = none := by
  rcases h : m.lookup g with _ | v
  · rw [renameKey_of_lookup_eq_none t h, h]
  · rw [renameKey_of_lookup_eq_some t h, Finmap.lookup_insert_of_ne _ hne,
      Finmap.lookup_erase]

lemma lookup_renameKey_new {V : Type} {m : StrMap V} {g : String} {v : V}
    (t : String) (h : m.lookup g = some v) :
    (renameKey m g t).lookup t = some v := by
  rw [renameKey_of_lookup_eq_some t h, Finmap.lookup_insert]

lemma renameKey_idem {V : Type} (m : StrMap V) (g t : String) :
    renameKey (renameKey m g t) g t = renameKey m g t := by
  rcases h : m.lookup g with _ | v
  · simp only [renameKey_of_lookup_eq_none t h]
  · by_cases hgt : g = t
    · subst hgt
      rw [renameKey_of_lookup_eq_some g h]
      have hl : ((m.erase g).insert g v).lookup g = some v := Finmap.lookup_insert _
      rw [renameKey_of_lookup_eq_some g hl, erase_insert_self, erase_erase_self,
        insert_erase_self]
    · have hl : (renameKey m g t).lookup g = none := lookup_renameKey_old m hgt
      rw [renameKey_of_lookup_eq_none t hl]

lemma renameKey_upsert_idem {V : Type} (m : StrMap V) (g t : String) (c : V) :
    (renameKey ((renameKey m g t).insert t c) g t).insert t c =
      (renameKey m g t).insert t c := by
  by_cases hgt : g = t
  · subst hgt
    have hl : ((renameKey m g g).insert g c).lookup g = some c := Finmap.lookup_insert _
    rw [renameKey_of_lookup_eq_some g hl, erase_insert_self, insert_erase_self,
      Finmap.insert_insert]
  · have hl : ((renameKey m g t).insert t c).lookup g = none := by
      rw [Finmap.lookup_insert_of_ne _ hgt]
      exact lookup_renameKey_old m hgt
    rw [renameKey_of_lookup_eq_none t hl, Finmap.insert_insert]

lemma renameKey_singleton_self {V : Type} (g t : String) (v : V) :
    renameKey (Finmap.singleton g v : StrMap V) g t = Finmap.singleton t v := by
  rw [renameKey_of_lookup_eq_some t Finmap.lookup_singleton_eq, erase_singleton_self,
    insert_empty]

lemma lookup_union_or {V : Type} (s₁ s₂ : StrMap V) (k : String) :
    (s₁ ∪ s₂).lookup k = (s₁.lookup k).or (s₂.lookup k) := by
  by_cases hk : k ∈ s₁
  · rcases Finmap.mem_iff.mp hk with ⟨v, hv⟩
    rw [Finmap.lookup_union_left hk, hv, Option.or_some]
  · rw [Finmap.lookup_union_right hk, Finmap.lookup_eq_none.mpr hk, Option.none_or]

/-! ### adjustConfigKeys branch lemmas -/

lemma adjustConfigKeys_ocm_eq (config : Config) (cpName : String) :
    adjustConfigKeys config cpName ControlPlaneTypeOCM =
      { clusters :=
          renameKey config.clusters "multicluster-controlplane" (GenerateClusterName cpName)
        authInfos := renameKey config.authInfos "user" (GenerateAuthInfoAdminName cpName)
        contexts :=
          (renameKey config.contexts "multicluster-controlplane"
              (GenerateContextName cpName)).insert (GenerateContextName cpName)
            { cluster := GenerateClusterName cpName
              authInfo := GenerateAuthInfoAdminName cpName
              nspace := "" }
        currentContext := GenerateContextName cpName } := by
  simp [adjustConfigKeys]

lemma adjustConfigKeys_vcluster_eq (config : Config) (cpName : String) :
    adjustConfigKeys config cpName ControlPlaneTypeVCluster =
      { clusters := renameKey config.clusters "my-vcluster" (GenerateClusterName cpName)
        authInfos := renameKey config.authInfos "my-vcluster" (GenerateAuthInfoAdminName cpName)
        contexts :=
          (renameKey config.contexts "my-vcluster" (GenerateContextName cpName)).insert
            (GenerateContextName cpName)
            { cluster := GenerateClusterName cpName
              authInfo := GenerateAuthInfoAdminName cpName
              nspace := "" }
        currentContext := GenerateContextName cpName } := by
  simp [adjustConfigKeys, ControlPlaneTypeOCM, ControlPlaneTypeVCluster]

/-! ### Watch lemmas -/

lemma watchRun_of_stopClosed (t : String) (es : List String) (s : WatchRun)
    (h : s.stopClosed = true) : watchRun t es s = s := by
  cases es <;> simp [watchRun, h]

lemma watchRun_closeCount_le (t : String) (es : List String) (s : WatchRun)
    (h : s.stopClosed = false) : (watchRun t es s).closeCount ≤ s.closeCount + 1 := by
  induction es generalizing s with
  | nil => simp [watchRun]
  | cons e rest ih =>
    rw [watchRun, h]
    simp only [Bool.false_eq_true, if_false]
    by_cases he : e = t
    · have hs : onSecretAdd t e s = { stopClosed := true, closeCount := s.closeCount + 1 } := by
        simp [onSecretAdd, he]
      rw [hs, watchRun_of_stopClosed t rest _ rfl]
    · have hs : onSecretAdd t e s = s := by simp [onSecretAdd, he]
      rw [hs]
      exact ih s h

lemma watchRun_stopClosed_iff (t : String) (es : List String) (s : WatchRun)
    (h : s.stopClosed = false) :
    ((watchRun t es s).stopClosed = true ↔ t ∈ es) := by
  induction es generalizing s with
  | nil =>
    simp [watchRun, h]
  | cons e rest ih =>
    rw [watchRun, h]
    simp only [Bool.false_eq_true, if_false]
    by_cases he : e = t
    · have hs : onSecretAdd t e s = { stopClosed := true, closeCount := s.closeCount + 1 } := by
        simp [onSecretAdd, he]
      rw [hs, watchRun_of_stopClosed t rest _ rfl]
      simp [he]
    · have hs : onSecretAdd t e s = s := by simp [onSecretAdd, he]
      rw [hs]
      rw [ih s h, List.mem_cons]
      constructor
      · exact Or.inr
      · rintro (rfl | hmem)
        · exact absurd rfl he
        · exact hmem

lemma watchRun_take_first_match (t : String) (es : List String) (s : WatchRun) :
    watchRun t es s = watchRun t (es.take ((es.findIdx fun e => e == t) + 1)) s := by
  induction es generalizing s with
  | nil => rfl
  | cons e rest ih =>
    by_cases hstop : s.stopClosed = true
    · rw [watchRun_of_stopClosed t _ s hstop, watchRun_of_stopClosed t _ s hstop]
    · have h : s.stopClosed = false := by
        cases hs : s.stopClosed
        · rfl
        · exact absurd hs hstop
      by_cases he : e = t
      · have hidx : (List.findIdx (fun e => e == t) (e :: rest)) = 0 := by
          simp [List.findIdx_cons, he]
        rw [hidx]
        simp only [List.take, zero_add]
        rw [watchRun, h, watchRun, h]
        simp only [Bool.false_eq_true, if_false]
        have hs : onSecretAdd t e s = { stopClosed := true, closeCount := s.closeCount + 1 } := by
          simp [onSecretAdd, he]
        rw [hs, watchRun_of_stopClosed t rest _ rfl, watchRun_of_stopClosed t [] _ rfl]
      · have hidx : (List.findIdx (fun e => e == t) (e :: rest)) =
            (List.findIdx (fun e => e == t) rest) + 1 := by
          have hb : (e == t) = false := beq_eq_false_iff_ne.mpr he
          simp [List.findIdx_cons, hb]
        rw [hidx]
        simp only [List.take]
        rw [watchRun, h, watchRun, h]
        simp only [Bool.false_eq_true, if_false]
        have hs : onSecretAdd t e s = s := by simp [onSecretAdd, he]
        rw [hs]
        exact ih s

lemma not_mem_take_findIdx (t : String) (es : List String) (n : Nat)
    (h : n ≤ es.findIdx fun e => e == t) : t ∉ es.take n := by
  induction es generalizing n with
  | nil => simp
  | cons e rest ih =>
    cases n with
    | zero => simp
    | succ m =>
      by_cases he : e = t
      · have hidx : (List.findIdx (fun e => e == t) (e :: rest)) = 0 := by
          simp [List.findIdx_cons, he]
        rw [hidx] at h
        omega
      · have hidx : (List.findIdx (fun e => e == t) (e :: rest)) =
            (List.findIdx (fun e => e == t) rest) + 1 := by
          have hb : (e == t) = false := beq_eq_false_iff_ne.mpr he
          simp [List.findIdx_cons, hb]
        rw [hidx] at h
        simp only [List.take, List.mem_cons]
        rintro (rfl | hmem)
        · exact he rfl
        · exact ih m (by omega) hmem

/-! ### Claim theorems -/

/-- C1: for control-plane name cp1 and type VCluster, remapping a document
whose three mappings are keyed by the generic key my-vcluster (with the
generic context referencing the generic names) and whose currentContext is
my-vcluster yields exactly the document keyed by the generated names, with
the context record referencing the generated cluster and auth-info names,
currentContext set to the generated context name, and the key my-vcluster
absent from all three mappings. -/
theorem adjustConfigKeys_vcluster_scenario (c : Cluster) (a : AuthInfo) :
    adjustConfigKeys (vclusterScenarioInput c a) "cp1" ControlPlaneTypeVCluster =
      vclusterScenarioExpected c a ∧
    "my-vcluster" ∉
      (adjustConfigKeys (vclusterScenarioInput c a) "cp1" ControlPlaneTypeVCluster).clusters ∧
    "my-vcluster" ∉
      (adjustConfigKeys (vclusterScenarioInput c a) "cp1" ControlPlaneTypeVCluster).authInfos ∧
    "my-vcluster" ∉
      (adjustConfigKeys (vclusterScenarioInput c a) "cp1" ControlPlaneTypeVCluster).contexts := by
  have hmain :
      adjustConfigKeys (vclusterScenarioInput c a) "cp1" ControlPlaneTypeVCluster =
        vclusterScenarioExpected c a := by
    rw [vclusterScenarioInput, adjustConfigKeys_vcluster_eq]
    rw [renameKey_singleton_self, renameKey_singleton_self, renameKey_singleton_self,
      Finmap.insert_singleton_eq, vclusterScenarioExpected]
  refine ⟨hmain, ?_, ?_, ?_⟩ <;> rw [hmain] <;>
    simp only [vclusterScenarioExpected, Finmap.mem_singleton] <;> decide

/-- C2: for each known control-plane type and every control-plane name and
document, applying the remap twice yields the same document as applying it
once. -/
theorem adjustConfigKeys_idempotent (config : Config) (cpName ty : String)
    (h : ty = ControlPlaneTypeOCM ∨ ty = ControlPlaneTypeVCluster) :
    adjustConfigKeys (adjustConfigKeys config cpName ty) cpName ty =
      adjustConfigKeys config cpName ty := by
  rcases h with h | h <;> subst h
  · rw [adjustConfigKeys_ocm_eq config cpName, adjustConfigKeys_ocm_eq]
    simp only [renameKey_idem, renameKey_upsert_idem]
  · rw [adjustConfigKeys_vcluster_eq config cpName, adjustConfigKeys_vcluster_eq]
    simp only [renameKey_idem, renameKey_upsert_idem]

/-- Witness for C2 at a concrete input. -/
theorem adjustConfigKeys_idempotent_witness :
    adjustConfigKeys (adjustConfigKeys emptyConfig "cp1" ControlPlaneTypeVCluster) "cp1"
        ControlPlaneTypeVCluster =
      adjustConfigKeys emptyConfig "cp1" ControlPlaneTypeVCluster :=
  adjustConfigKeys_idempotent emptyConfig "cp1" ControlPlaneTypeVCluster (Or.inr rfl)

/-- C3: for each known control-plane type, every control-plane name and every
document, the remap sets currentContext to the generated context name and
upserts at that key a context record referencing the generated cluster and
auth-info names — even when the input document contained no generic context
entry (the document is universally quantified). -/
theorem adjustConfigKeys_sets_context (config : Config) (cpName ty : String)
    (h : ty = ControlPlaneTypeOCM ∨ ty = ControlPlaneTypeVCluster) :
    (adjustConfigKeys config cpName ty).currentContext = GenerateContextName cpName ∧
    (adjustConfigKeys config cpName ty).contexts.lookup (GenerateContextName cpName) =
      some
        { cluster := GenerateClusterName cpName
          authInfo := GenerateAuthInfoAdminName cpName
          nspace := "" } := by
  rcases h with h | h <;> subst h
  · rw [adjustConfigKeys_ocm_eq]
    exact ⟨rfl, Finmap.lookup_insert _⟩
  · rw [adjustConfigKeys_vcluster_eq]
    exact ⟨rfl, Finmap.lookup_insert _⟩

/-- Witness for C3 at a concrete input with no generic context entry. -/
theorem adjustConfigKeys_sets_context_witness :
    (adjustConfigKeys emptyConfig "cp1" ControlPlaneTypeVCluster).currentContext =
        GenerateContextName "cp1" ∧
    (adjustConfigKeys emptyConfig "cp1" ControlPlaneTypeVCluster).contexts.lookup
        (GenerateContextName "cp1") =
      some
        { cluster := GenerateClusterName "cp1"
          authInfo := GenerateAuthInfoAdminName "cp1"
          nspace := "" } :=
  adjustConfigKeys_sets_context emptyConfig "cp1" ControlPlaneTypeVCluster (Or.inr rfl)

/-- C4: the rename step used by the remap on each of the three mappings of
every known type: when the generic key is present, it is removed and its
value reinserted under the generated key (so the value is found at the new
key, and the old key is gone whenever the two keys differ); when the generic
key is absent, the mapping is returned unchanged — a silent no-op, never an
error (the operation is total). -/
theorem renameKey_renames_or_skips {V : Type} (m : StrMap V) (g t : String) :
    (∀ v, m.lookup g = some v →
        renameKey m g t = (m.erase g).insert t v ∧
        (renameKey m g t).lookup t = some v ∧
        (g ≠ t → (renameKey m g t).lookup g = none)) ∧
    (m.lookup g = none → renameKey m g t = m) := by
  constructor
  · intro v hv
    exact ⟨renameKey_of_lookup_eq_some t hv, lookup_renameKey_new t hv,
      fun hne => lookup_renameKey_old m hne⟩
  · intro h
    exact renameKey_of_lookup_eq_none t h

/-- Witness for C4 at concrete inputs: one present-key rename and one
absent-key no-op. -/
theorem renameKey_renames_or_skips_witness :
    renameKey (Finmap.singleton "my-vcluster" sampleCluster : StrMap Cluster) "my-vcluster"
        "cp1-cluster" =
      ((Finmap.singleton "my-vcluster" sampleCluster : StrMap Cluster).erase
          "my-vcluster").insert "cp1-cluster" sampleCluster ∧
    renameKey (∅ : StrMap Cluster) "my-vcluster" "cp1-cluster" = ∅ :=
  ⟨((renameKey_renames_or_skips (Finmap.singleton "my-vcluster" sampleCluster) "my-vcluster"
      "cp1-cluster").1 sampleCluster (by decide)).1,
    (renameKey_renames_or_skips (∅ : StrMap Cluster) "my-vcluster" "cp1-cluster").2 rfl⟩

/-- C5: for every document, every control-plane name and every type that is
neither OCM nor VCluster, the remap is the identity: the result equals the
input document (hence in all three mappings and in currentContext). -/
theorem adjustConfigKeys_unknown_type_noop (config : Config) (cpName ty : String)
    (h1 : ty ≠ ControlPlaneTypeOCM) (h2 : ty ≠ ControlPlaneTypeVCluster) :
    adjustConfigKeys config cpName ty = config := by
  simp [adjustConfigKeys, h1, h2]

/-- Witness for C5 at a concrete unknown type. -/
theorem adjustConfigKeys_unknown_type_noop_witness :
    adjustConfigKeys emptyConfig "cp1" "unknown-type" = emptyConfig :=
  adjustConfigKeys_unknown_type_noop emptyConfig "cp1" "unknown-type" (by decide) (by decide)

/-- C6: merging a source document into a destination: on each of the three
mappings the result looks up to the source value when the source has the
key (overwriting any destination entry, last writer wins) and to the
destination value otherwise (destination-only keys preserved), and the
destination currentContext is set to the source currentContext
unconditionally. -/
theorem merge_contract (konfig cpKonfig : Config) :
    (∀ k, (merge konfig cpKonfig).clusters.lookup k =
        (cpKonfig.clusters.lookup k).or (konfig.clusters.lookup k)) ∧
    (∀ k, (merge konfig cpKonfig).authInfos.lookup k =
        (cpKonfig.authInfos.lookup k).or (konfig.authInfos.lookup k)) ∧
    (∀ k, (merge konfig cpKonfig).contexts.lookup k =
        (cpKonfig.contexts.lookup k).or (konfig.contexts.lookup k)) ∧
    (merge konfig cpKonfig).currentContext = cpKonfig.currentContext :=
  ⟨fun k => lookup_union_or _ _ k, fun k => lookup_union_or _ _ k,
    fun k => lookup_union_or _ _ k, rfl⟩

/-- C7: the readiness wait, observed on a stream of creation events delivered
sequentially by the informer: the stop signal is produced at most once on any
stream (even streams with several matching events); the wait resolves exactly
when the stream contains a creation event whose name equals the target (so it
never resolves on non-matching events); the run is already determined by the
prefix ending at the first matching event; and on every proper prefix before
the first match the wait has not resolved. -/
theorem WatchForSecretCreation_single_shot (secretName : String) (events : List String) :
    (watchRun secretName events watchInit).closeCount ≤ 1 ∧
    (WatchForSecretCreation secretName events = true ↔ secretName ∈ events) ∧
    watchRun secretName events watchInit =
      watchRun secretName (events.take ((events.findIdx fun e => e == secretName) + 1))
        watchInit ∧
    (∀ n, n ≤ events.findIdx (fun e => e == secretName) →
        WatchForSecretCreation secretName (events.take n) = false) := by
  refine ⟨watchRun_closeCount_le secretName events watchInit rfl,
    watchRun_stopClosed_iff secretName events watchInit rfl,
    watchRun_take_first_match secretName events watchInit, ?_⟩
  intro n hn
  have hmem := not_mem_take_findIdx secretName events n hn
  have hiff := watchRun_stopClosed_iff secretName (events.take n) watchInit rfl
  rw [WatchForSecretCreation]
  cases hs : (watchRun secretName (events.take n) watchInit).stopClosed
  · rfl
  · exact absurd (hiff.mp hs) hmem

/-- Witness for C7: on the stream [other, target] the wait resolves, and on
the one-event prefix [other] it has not resolved. -/
theorem WatchForSecretCreation_single_shot_witness :
    WatchForSecretCreation "target" ["other", "target"] = true ∧
    WatchForSecretCreation "target" (["other", "target"].take 1) = false :=
  ⟨(WatchForSecretCreation_single_shot "target" ["other", "target"]).2.1.mpr (by decide),
    (WatchForSecretCreation_single_shot "target" ["other", "target"]).2.2.2 1 (by decide)⟩

/-- C8: in LoadAndMerge, a failure of the bundle fetch-and-decode step, or of
the aggregate load step, is returned to the caller unchanged, the remaining
steps are skipped, and the backing location is left untouched (the merge of
the contract is total, so fetch, decode and load are the only steps that can
fail before the final persist). -/
theorem LoadAndMerge_error_propagation (decode : Bytes → Except KErr Config)
    (client : Clientset) (name ty : String) (fs : FileSys) :
    (∀ e, loadControlPlaneKubeconfig decode client name ty = .error e →
        LoadAndMerge decode client name ty fs = (.error e, fs)) ∧
    (∀ cpk e, loadControlPlaneKubeconfig decode client name ty = .ok cpk →
        LoadKubeconfig fs = .error e →
        LoadAndMerge decode client name ty fs = (.error e, fs)) := by
  constructor
  · intro e h
    simp [LoadAndMerge, h]
  · intro cpk e h1 h2
    simp [LoadAndMerge, h1, h2]

/-- Witness for C8: a failing fetch propagates its error and leaves the
backing location untouched. -/
theorem LoadAndMerge_error_propagation_witness :
    LoadAndMerge decodeFail emptyClient "cp1" ControlPlaneTypeVCluster sampleFS =
      (.error "NotFoundError", sampleFS) :=
  (LoadAndMerge_error_propagation decodeFail emptyClient "cp1" ControlPlaneTypeVCluster
    sampleFS).1 "NotFoundError" rfl

/-- C9 counterexample: with a concrete store whose secret exists but carries
no payload keys, and a decoder rejecting every non-empty payload, loading the
control-plane credential document succeeds with the empty document — it does
not fail, contradicting the claim that the absent payload key yields a
KeyMissingError. -/
theorem loadControlPlaneKubeconfig_key_absent_counterexample :
    loadControlPlaneKubeconfig decodeFail keylessClient "cp1" ControlPlaneTypeVCluster =
      .ok emptyConfig := by
  rfl

/-- C9 amended: when the payload key selected for the control-plane type is
absent from the fetched bundle data, loading does not fail: Go map indexing
yields the empty byte slice and the decoder returns the default empty
document, so the call succeeds with the empty credential document. -/
theorem loadControlPlaneKubeconfig_key_absent (decode : Bytes → Except KErr Config)
    (client : Clientset) (name ty : String) (ks : Secret)
    (hget : client.getSecret (GenerateNamespaceFromControlPlaneName name)
        (GetKubeconfSecretNameByControlPlaneType ty) = some ks)
    (hkey : ks.data.lookup (GetKubeconfSecretKeyNameByControlPlaneType ty) = none) :
    loadControlPlaneKubeconfig decode client name ty = .ok emptyConfig := by
  simp [loadControlPlaneKubeconfig, hget, goMapGet, hkey, clientcmdLoad]

/-- Witness for the amended C9 at a concrete input. -/
theorem loadControlPlaneKubeconfig_key_absent_witness :
    loadControlPlaneKubeconfig decodeFail keylessClient "cp2" ControlPlaneTypeVCluster =
      .ok emptyConfig :=
  loadControlPlaneKubeconfig_key_absent decodeFail keylessClient "cp2"
    ControlPlaneTypeVCluster { data := ∅ } rfl rfl

/-- C10: when a mapping contains both the generic key and the generated
target key as distinct keys, the rename step deletes the generic key and
overwrites the pre-existing entry at the target key with the generic key
value, so the pre-existing target entry is lost and the mapping shrinks by
one key. -/
theorem renameKey_collision_overwrites {V : Type} (m : StrMap V) (g t : String) (v w : V)
    (hne : g ≠ t) (hg : m.lookup g = some v) (ht : m.lookup t = some w) :
    (renameKey m g t).lookup t = some v ∧
    (renameKey m g t).lookup g = none ∧
    (renameKey m g t).keys.card = m.keys.card - 1 := by
  have hmemg : g ∈ m := Finmap.mem_of_lookup_eq_some hg
  have hmemt : t ∈ m := Finmap.mem_of_lookup_eq_some ht
  refine ⟨lookup_renameKey_new t hg, lookup_renameKey_old m hne, ?_⟩
  rw [renameKey_of_lookup_eq_some t hg, keys_insert, Finmap.keys_erase]
  have htin : t ∈ m.keys.erase g :=
    Finset.mem_erase.mpr ⟨Ne.symm hne, Finmap.mem_keys.mpr hmemt⟩
  rw [Finset.insert_eq_self.mpr htin,
    Finset.card_erase_of_mem (Finmap.mem_keys.mpr hmemg)]

/-- Witness for C10 on a concrete two-entry mapping holding both keys. -/
theorem renameKey_collision_overwrites_witness :
    (renameKey collisionMap "my-vcluster" "cp1-cluster").lookup "cp1-cluster" =
        some sampleCluster ∧
    (renameKey collisionMap "my-vcluster" "cp1-cluster").lookup "my-vcluster" = none ∧
    (renameKey collisionMap "my-vcluster" "cp1-cluster").keys.card =
      collisionMap.keys.card - 1 :=
  renameKey_collision_overwrites collisionMap "my-vcluster" "cp1-cluster" sampleCluster
    sampleCluster2 (by decide) (by decide) (by decide)

end Kubeconfig
